import Mathlib

/-!
# APDU construction in `ccid/util.c`

A shallow embedding of `build_apdu` (src/ccid/util.c, lines 181-244) and the
properties of its ISO 7816-4 short-form case determination.

Conventions of the embedding

* `u8` bytes are `Fin 256`; `size_t` values are `Nat`.  Every subtraction the
  function performs on `len` is guarded by the comparison just before it
  (`len >= 4`, `len > 1`, `len >= lc`, `len != 0`), so truncated subtraction on
  `Nat` and wrapping subtraction on `size_t` agree wherever one is executed.
* The input pointer `buf` is `Option (List u8)`: `none` is the null pointer,
  `some b` points at an object of exactly `b.length` bytes.  The argument `len`
  is passed separately, as in C.  A read `*p++` at an offset outside the object
  makes the whole call undefined, which the embedding renders as `none`.
* The output pointer `apdu` is `Option sc_apdu_t`: `none` is the null pointer,
  `some a0` is the record the caller passes in, with its prior contents.
* `apdu->data` is a pointer into `buf`; it is kept as an offset from `buf`,
  with `none` for the null pointer left by `memset`.
* The logging calls `sc_error` and `sc_debug` append to a list of messages.
  The casts to `unsigned long` in the two error messages keep the value
  (`unsigned long` is as wide as `size_t` where the program runs); the cast
  `(unsigned int) len0` of the trace is a reduction modulo `2^32`.
* An update of `p` or `len` whose result no later statement of the function
  uses (the `p++` of the last read of a path, the `len--` of the case 2 branch)
  has no counterpart in the embedding.
-/

namespace Ccid

/-- An unsigned byte, the `u8` of the source. -/
abbrev u8 := Fin 256

/-- The constants `build_apdu` takes from the OpenSC headers (`opensc/errors.h`,
`opensc/types.h`).  The headers are not part of the repository, so the
constants are parameters of the embedding. -/
structure OpenSC where
  SC_SUCCESS : Int
  SC_ERROR_INVALID_ARGUMENTS : Int
  SC_ERROR_INVALID_DATA : Int
  SC_APDU_CASE_1 : Int
  SC_APDU_CASE_2_SHORT : Int
  SC_APDU_CASE_3_SHORT : Int
  SC_APDU_CASE_4_SHORT : Int
  SC_APDU_FLAGS_NO_GET_RESP : Nat
  SC_APDU_FLAGS_NO_RETRY_WL : Nat
deriving DecidableEq, Repr

/-- One choice of the constants, the values of the OpenSC 0.11 headers, for the
examples.  The general statements hold for every choice that meets their
hypotheses. -/
def opensc : OpenSC where
  SC_SUCCESS := 0
  SC_ERROR_INVALID_ARGUMENTS := -1300
  SC_ERROR_INVALID_DATA := -1305
  SC_APDU_CASE_1 := 1
  SC_APDU_CASE_2_SHORT := 2
  SC_APDU_CASE_3_SHORT := 3
  SC_APDU_CASE_4_SHORT := 4
  SC_APDU_FLAGS_NO_GET_RESP := 2
  SC_APDU_FLAGS_NO_RETRY_WL := 4

/-- Modelled from the spec: the declaration of `sc_apdu_t` is in
`opensc/types.h`, which is not part of the repository.  The fields are the ones
`build_apdu` names, typed as section 3 of the spec describes them: four
single-byte header fields; `lc`, `le` and `datalen` wide enough to hold `256`
(`size_t`); the case `cse` (an `int`); the `flags` bits; and `data`, a view into
the input buffer (`const u8 *`), kept as an offset into `buf`. -/
structure sc_apdu_t where
  cse : Int
  cla : u8
  ins : u8
  p1 : u8
  p2 : u8
  lc : Nat
  le : Nat
  data : Option Nat
  datalen : Nat
  flags : Nat
deriving DecidableEq, Repr

/-- The record after `memset(apdu, 0, sizeof(*apdu))`. -/
def memset_zero : sc_apdu_t where
  cse := 0
  cla := 0
  ins := 0
  p1 := 0
  p2 := 0
  lc := 0
  le := 0
  data := none
  datalen := 0
  flags := 0

/-- The diagnostic messages of `build_apdu`, one constructor per format string,
carrying the values of its arguments. -/
inductive Msg where
  /-- The call `sc_error(ctx, "APDU too short (must be at least 4 bytes)")`. -/
  | too_short_header : Msg
  /-- The call `sc_error(ctx, "APDU too short (need %lu bytes)\n", (unsigned long) apdu->lc - len)`. -/
  | too_short (need : Nat) : Msg
  /-- The call `sc_error(ctx, "APDU too long (%lu bytes extra)\n", (unsigned long) len)`. -/
  | too_long (extra : Nat) : Msg
  /-- The call `sc_debug(ctx, "APDU, %d bytes:\tins=%02x p1=%02x p2=%02x", (unsigned int) len0, ...)`. -/
  | debug_apdu (len0 : Nat) (ins p1 p2 : u8) : Msg
deriving DecidableEq, Repr

/-- What a call leaves behind: the returned status, the contents of `*apdu`
(`none` when the pointer is null) and the messages logged. -/
structure Outcome where
  ret : Int
  apdu : Option sc_apdu_t
  log : List Msg
deriving DecidableEq, Repr

/-- Modelled from the spec: the macro `SC_FUNC_RETURN(ctx, level, r)` is defined
in `opensc/log.h`, which is not part of the repository.  Section 9 of the spec
describes it as an early-return convention: the function returns `r`. -/
def SC_FUNC_RETURN (r : Int) (apdu : Option sc_apdu_t) (log : List Msg) : Outcome :=
  ⟨r, apdu, log⟩

/-- The read `*p` at offset `p` of the object `buf` points to. -/
def deref (buf : List u8) (p : Nat) : Option u8 := buf[p]?

/-- The tail of `build_apdu` shared by its successful paths (lines 238-243): set
`flags`, trace the command, return `SC_SUCCESS`.  The cast
`(unsigned int) len0` is a reduction modulo `2^32`. -/
def build_apdu_finish (K : OpenSC) (len0 : Nat) (apdu : sc_apdu_t) : Outcome :=
  let apdu := { apdu with
    flags := K.SC_APDU_FLAGS_NO_GET_RESP ||| K.SC_APDU_FLAGS_NO_RETRY_WL }
  SC_FUNC_RETURN K.SC_SUCCESS (some apdu)
    [Msg.debug_apdu (len0 % 2 ^ 32) apdu.ins apdu.p1 apdu.p2]

/-- The function `build_apdu` of src/ccid/util.c. -/
def build_apdu (K : OpenSC) (buf : Option (List u8)) (len : Nat)
    (apdu : Option sc_apdu_t) : Option Outcome :=
  match buf, apdu with
  | some buf, some a0 =>
    let len0 := len
    if len < 4 then
      some (SC_FUNC_RETURN K.SC_ERROR_INVALID_DATA (some a0) [Msg.too_short_header])
    else do
      let apdu := memset_zero
      let p := 0
      let apdu := { apdu with cla := (← deref buf p) }
      let p := p + 1
      let apdu := { apdu with ins := (← deref buf p) }
      let p := p + 1
      let apdu := { apdu with p1 := (← deref buf p) }
      let p := p + 1
      let apdu := { apdu with p2 := (← deref buf p) }
      let p := p + 1
      let len := len - 4
      if len > 1 then
        let apdu := { apdu with lc := (← deref buf p).val }
        let p := p + 1
        let len := len - 1
        let apdu := { apdu with data := some p }
        let apdu := { apdu with datalen := apdu.lc }
        if len < apdu.lc then
          pure (SC_FUNC_RETURN K.SC_ERROR_INVALID_DATA (some apdu)
            [Msg.too_short (apdu.lc - len)])
        else
          let len := len - apdu.lc
          let p := p + apdu.lc
          if len ≠ 0 then
            let apdu := { apdu with le := (← deref buf p).val }
            let apdu := { apdu with le := if apdu.le = 0 then 256 else apdu.le }
            let len := len - 1
            let apdu := { apdu with cse := K.SC_APDU_CASE_4_SHORT }
            if len ≠ 0 then
              pure (SC_FUNC_RETURN K.SC_ERROR_INVALID_DATA (some apdu) [Msg.too_long len])
            else
              pure (build_apdu_finish K len0 apdu)
          else
            let apdu := { apdu with cse := K.SC_APDU_CASE_3_SHORT }
            if len ≠ 0 then
              pure (SC_FUNC_RETURN K.SC_ERROR_INVALID_DATA (some apdu) [Msg.too_long len])
            else
              pure (build_apdu_finish K len0 apdu)
      else if len = 1 then
        let apdu := { apdu with le := (← deref buf p).val }
        let apdu := { apdu with le := if apdu.le = 0 then 256 else apdu.le }
        let apdu := { apdu with cse := K.SC_APDU_CASE_2_SHORT }
        pure (build_apdu_finish K len0 apdu)
      else
        let apdu := { apdu with cse := K.SC_APDU_CASE_1 }
        pure (build_apdu_finish K len0 apdu)
  | _, _ => some (SC_FUNC_RETURN K.SC_ERROR_INVALID_ARGUMENTS apdu [])

/-! ## Vocabulary of the properties -/

/-- The record after the four header bytes have been stored. -/
def header_apdu (c i q1 q2 : u8) : sc_apdu_t :=
  { memset_zero with cla := c, ins := i, p1 := q1, p2 := q2 }

/-- Short-form reading of an `le` byte: `0` stands for `256`, any other byte for
itself. -/
def le_norm (x : u8) : Nat := if x.val = 0 then 256 else x.val

/-- A property of the outcome of a call, vacuous where the call is undefined. -/
def Holds (P : Outcome → Prop) : Option Outcome → Prop
  | none => True
  | some o => P o

/-- Byte 4 of the buffer as a number (`0` when the buffer has no byte 4). -/
def lc_byte (b : List u8) : Nat := ((b[4]?).getD 0).val

/-- The input lengths that are an exact short-form APDU: `4`, `5`, and, from
`6` bytes on, `5 + lc` or `6 + lc`, where `lc` is byte 4. -/
def exact_length (b : List u8) : Prop :=
  b.length = 4 ∨ b.length = 5 ∨
    (6 ≤ b.length ∧ (b.length = 5 + lc_byte b ∨ b.length = 6 + lc_byte b))

/-- The four case constants are pairwise different. -/
def cases_distinct (K : OpenSC) : Prop :=
  K.SC_APDU_CASE_1 ≠ K.SC_APDU_CASE_2_SHORT ∧ K.SC_APDU_CASE_1 ≠ K.SC_APDU_CASE_3_SHORT ∧
  K.SC_APDU_CASE_1 ≠ K.SC_APDU_CASE_4_SHORT ∧
  K.SC_APDU_CASE_2_SHORT ≠ K.SC_APDU_CASE_3_SHORT ∧
  K.SC_APDU_CASE_2_SHORT ≠ K.SC_APDU_CASE_4_SHORT ∧
  K.SC_APDU_CASE_3_SHORT ≠ K.SC_APDU_CASE_4_SHORT

/-- The number of input bytes a parsed record accounts for: the header, the
`lc` byte and the data in cases 3 and 4, the `le` byte in cases 2 and 4. -/
def consumed (K : OpenSC) (a : sc_apdu_t) : Nat :=
  4 + (if a.cse = K.SC_APDU_CASE_3_SHORT ∨ a.cse = K.SC_APDU_CASE_4_SHORT then 1 + a.lc else 0)
    + (if a.cse = K.SC_APDU_CASE_2_SHORT ∨ a.cse = K.SC_APDU_CASE_4_SHORT then 1 else 0)

/-- The bytes `apdu->data[0 .. datalen)`, read through the pointer into `buf`;
empty when the pointer is null. -/
def data_view (buf : List u8) (a : sc_apdu_t) : List u8 :=
  match a.data with
  | none => []
  | some p => (buf.drop p).take a.datalen

/-- The record with its data compared by value: the pointer is replaced by the
bytes it points at. -/
def by_value (buf : List u8) (a : sc_apdu_t) :
    Int × u8 × u8 × u8 × u8 × Nat × Nat × List u8 × Nat × Nat :=
  (a.cse, a.cla, a.ins, a.p1, a.p2, a.lc, a.le, data_view buf a, a.datalen, a.flags)

/-- Re-serialisation of a parsed record: the header, then `lc` and the data
bytes in cases 3 and 4, then `le mod 256` in cases 2 and 4. -/
def serialise (K : OpenSC) (buf : List u8) (a : sc_apdu_t) : List Nat :=
  [a.cla.val, a.ins.val, a.p1.val, a.p2.val]
    ++ (if a.cse = K.SC_APDU_CASE_3_SHORT ∨ a.cse = K.SC_APDU_CASE_4_SHORT
        then a.lc :: (data_view buf a).map Fin.val else [])
    ++ (if a.cse = K.SC_APDU_CASE_2_SHORT ∨ a.cse = K.SC_APDU_CASE_4_SHORT
        then [a.le % 256] else [])

/-- Every field of `a` is the field of `a0` or zero (null for the pointer). -/
def prior_or_zero (a0 a : sc_apdu_t) : Prop :=
  (a.cse = a0.cse ∨ a.cse = 0) ∧ (a.cla = a0.cla ∨ a.cla = 0) ∧
  (a.ins = a0.ins ∨ a.ins = 0) ∧ (a.p1 = a0.p1 ∨ a.p1 = 0) ∧
  (a.p2 = a0.p2 ∨ a.p2 = 0) ∧ (a.lc = a0.lc ∨ a.lc = 0) ∧
  (a.le = a0.le ∨ a.le = 0) ∧ (a.data = a0.data ∨ a.data = none) ∧
  (a.datalen = a0.datalen ∨ a.datalen = 0) ∧ (a.flags = a0.flags ∨ a.flags = 0)

/-! ## Example buffers -/

/-- The bytes `00 A4 04 00`: a header alone. -/
def ex_case1 : List u8 := [0x00, 0xA4, 0x04, 0x00]

/-- The bytes `00 A4 04 00 00`: a header and one byte, equal to `0`. -/
def ex_case2 : List u8 := [0x00, 0xA4, 0x04, 0x00, 0x00]

/-- The bytes `00 A4 04 00 03`: a header and one byte, equal to `3`. -/
def ex_le3 : List u8 := [0x00, 0xA4, 0x04, 0x00, 0x03]

/-- The bytes `00 A4 04 00 02 3F 00`: `lc = 2` and two data bytes. -/
def ex_case3 : List u8 := [0x00, 0xA4, 0x04, 0x00, 0x02, 0x3F, 0x00]

/-- The bytes `00 A4 04 00 02 3F 00 00`: `lc = 2`, two data bytes and an `le` byte `0`. -/
def ex_case4 : List u8 := [0x00, 0xA4, 0x04, 0x00, 0x02, 0x3F, 0x00, 0x00]

/-- The bytes `00 A4 04 00 05 3F 00`: `lc = 5` and only two data bytes. -/
def ex_short : List u8 := [0x00, 0xA4, 0x04, 0x00, 0x05, 0x3F, 0x00]

/-- The bytes `00 A4 04 00 02 3F 00 00 01 02`: `lc = 2`, two data bytes and three more. -/
def ex_long : List u8 := [0x00, 0xA4, 0x04, 0x00, 0x02, 0x3F, 0x00, 0x00, 0x01, 0x02]

/-- The bytes `00 A4 04`: three bytes, less than a header. -/
def ex_header_short : List u8 := [0x00, 0xA4, 0x04]

/-! ## The outcome of `build_apdu` by the shape of its input -/

theorem build_apdu_len4 (K : OpenSC) (c i q1 q2 : u8) (a0 : sc_apdu_t) :
    build_apdu K (some [c, i, q1, q2]) 4 (some a0) =
      some (build_apdu_finish K 4 { header_apdu c i q1 q2 with cse := K.SC_APDU_CASE_1 }) := by
  simp [build_apdu, deref, header_apdu]

theorem build_apdu_len5 (K : OpenSC) (c i q1 q2 x : u8) (a0 : sc_apdu_t) :
    build_apdu K (some [c, i, q1, q2, x]) 5 (some a0) =
      some (build_apdu_finish K 5
        { header_apdu c i q1 q2 with le := le_norm x, cse := K.SC_APDU_CASE_2_SHORT }) := by
  simp [build_apdu, deref, header_apdu, le_norm]

theorem getElem?_past_header (c i q1 q2 l : u8) (d : List u8) (n : Nat) :
    (c :: i :: q1 :: q2 :: l :: d)[5 + n]? = d[n]? := by
  have : 5 + n = n + 1 + 1 + 1 + 1 + 1 := by omega
  rw [this]
  simp only [List.getElem?_cons_succ]

theorem build_apdu_data_short (K : OpenSC) (c i q1 q2 l : u8) (d : List u8) (a0 : sc_apdu_t)
    (h1 : 1 ≤ d.length) (h : d.length < l.val) :
    build_apdu K (some (c :: i :: q1 :: q2 :: l :: d)) (5 + d.length) (some a0) =
      some (SC_FUNC_RETURN K.SC_ERROR_INVALID_DATA
        (some { header_apdu c i q1 q2 with lc := l.val, data := some 5, datalen := l.val })
        [Msg.too_short (l.val - d.length)]) := by
  have e1 : ¬ (5 + d.length < 4) := by omega
  have e2 : 1 < 5 + d.length - 4 := by omega
  have e3 : 5 + d.length - 4 - 1 = d.length := by omega
  simp [build_apdu, deref, header_apdu, e1, e2, e3, h]

theorem build_apdu_case3 (K : OpenSC) (c i q1 q2 l : u8) (d : List u8) (a0 : sc_apdu_t)
    (h1 : 1 ≤ d.length) (h : d.length = l.val) :
    build_apdu K (some (c :: i :: q1 :: q2 :: l :: d)) (5 + d.length) (some a0) =
      some (build_apdu_finish K (5 + d.length)
        { header_apdu c i q1 q2 with
          lc := l.val, data := some 5, datalen := l.val, cse := K.SC_APDU_CASE_3_SHORT }) := by
  have e1 : ¬ (5 + d.length < 4) := by omega
  have e2 : 1 < 5 + d.length - 4 := by omega
  have e3 : 5 + d.length - 4 - 1 = d.length := by omega
  have e4 : ¬ (d.length < l.val) := by omega
  have e5 : d.length - l.val = 0 := by omega
  simp [build_apdu, deref, header_apdu, e1, e2, e3, e4, e5]

theorem build_apdu_case4 (K : OpenSC) (c i q1 q2 l x : u8) (d : List u8) (a0 : sc_apdu_t)
    (hx : d[l.val]? = some x) (h : d.length = l.val + 1) :
    build_apdu K (some (c :: i :: q1 :: q2 :: l :: d)) (5 + d.length) (some a0) =
      some (build_apdu_finish K (5 + d.length)
        { header_apdu c i q1 q2 with
          lc := l.val, data := some 5, datalen := l.val, le := le_norm x,
          cse := K.SC_APDU_CASE_4_SHORT }) := by
  have e1 : ¬ (5 + d.length < 4) := by omega
  have e2 : 1 < 5 + d.length - 4 := by omega
  have e3 : 5 + d.length - 4 - 1 = d.length := by omega
  have e4 : ¬ (d.length < l.val) := by omega
  have e5 : d.length - l.val = 1 := by omega
  simp [build_apdu, deref, header_apdu, le_norm, e1, e2, e3, e4, e5, getElem?_past_header, hx]

theorem build_apdu_too_long (K : OpenSC) (c i q1 q2 l x : u8) (d : List u8) (a0 : sc_apdu_t)
    (hx : d[l.val]? = some x) (h : l.val + 1 < d.length) :
    build_apdu K (some (c :: i :: q1 :: q2 :: l :: d)) (5 + d.length) (some a0) =
      some (SC_FUNC_RETURN K.SC_ERROR_INVALID_DATA
        (some { header_apdu c i q1 q2 with
          lc := l.val, data := some 5, datalen := l.val, le := le_norm x,
          cse := K.SC_APDU_CASE_4_SHORT })
        [Msg.too_long (d.length - l.val - 1)]) := by
  have e1 : ¬ (5 + d.length < 4) := by omega
  have e2 : 1 < 5 + d.length - 4 := by omega
  have e3 : 5 + d.length - 4 - 1 = d.length := by omega
  have e4 : ¬ (d.length < l.val) := by omega
  have e5 : d.length - l.val ≠ 0 := by omega
  have e6 : d.length - l.val - 1 ≠ 0 := by omega
  simp [build_apdu, deref, header_apdu, le_norm, e1, e2, e3, e4, e5, e6, getElem?_past_header, hx]

theorem holds_some (P : Outcome → Prop) (o : Outcome) : Holds P (some o) ↔ P o := Iff.rfl

theorem holds_bind {α : Type} (P : Outcome → Prop) (x : Option α) (f : α → Option Outcome) :
    Holds P (x.bind f) ↔ ∀ a, x = some a → Holds P (f a) := by
  cases x with
  | none => simp [Holds]
  | some a => simp

theorem build_apdu_flags (K : OpenSC) (buf : List u8) (len : Nat) (a0 : sc_apdu_t) (h4 : 4 ≤ len) :
    Holds (fun o => ∃ a, o.apdu = some a ∧
      ((o.ret = K.SC_SUCCESS ∧
          a.flags = K.SC_APDU_FLAGS_NO_GET_RESP ||| K.SC_APDU_FLAGS_NO_RETRY_WL) ∨
       (o.ret = K.SC_ERROR_INVALID_DATA ∧ a.flags = 0)))
      (build_apdu K (some buf) len (some a0)) := by
  have e1 : ¬ (len < 4) := by omega
  simp only [build_apdu, e1, if_false, Option.bind_eq_bind, Option.pure_def]
  simp only [holds_bind]
  intro c _ i _ q1 _ q2 _
  split_ifs
  · rw [holds_bind]
    intro l _
    split_ifs <;> try (rw [holds_bind]; intro x _)
    all_goals simp [holds_some, SC_FUNC_RETURN, memset_zero, build_apdu_finish]
  · rw [holds_bind]
    intro x _
    simp [holds_some, SC_FUNC_RETURN, memset_zero, build_apdu_finish]
  · simp [holds_some, SC_FUNC_RETURN, memset_zero, build_apdu_finish]

theorem exists_header (b : List u8) (h4 : 4 ≤ b.length) :
    ∃ c i q1 q2 rest, b = c :: i :: q1 :: q2 :: rest := by
  match b, h4 with
  | c :: i :: q1 :: q2 :: rest, _ => exact ⟨c, i, q1, q2, rest, rfl⟩

theorem build_apdu_shape (K : OpenSC) (b : List u8) (a0 : sc_apdu_t) (h4 : 4 ≤ b.length) :
    ∃ c i q1 q2 rest, b = c :: i :: q1 :: q2 :: rest ∧
      ((rest = [] ∧ build_apdu K (some b) b.length (some a0) =
          some (build_apdu_finish K b.length
            { header_apdu c i q1 q2 with cse := K.SC_APDU_CASE_1 })) ∨
       (∃ x, rest = [x] ∧ build_apdu K (some b) b.length (some a0) =
          some (build_apdu_finish K b.length
            { header_apdu c i q1 q2 with le := le_norm x, cse := K.SC_APDU_CASE_2_SHORT })) ∨
       (∃ l d, rest = l :: d ∧ 1 ≤ d.length ∧ d.length < l.val ∧
          build_apdu K (some b) b.length (some a0) =
            some (SC_FUNC_RETURN K.SC_ERROR_INVALID_DATA
              (some { header_apdu c i q1 q2 with
                lc := l.val, data := some 5, datalen := l.val })
              [Msg.too_short (l.val - d.length)])) ∨
       (∃ l d, rest = l :: d ∧ 1 ≤ d.length ∧ d.length = l.val ∧
          build_apdu K (some b) b.length (some a0) =
            some (build_apdu_finish K b.length
              { header_apdu c i q1 q2 with
                lc := l.val, data := some 5, datalen := l.val,
                cse := K.SC_APDU_CASE_3_SHORT })) ∨
       (∃ l d x, rest = l :: d ∧ d.length = l.val + 1 ∧ d[l.val]? = some x ∧
          build_apdu K (some b) b.length (some a0) =
            some (build_apdu_finish K b.length
              { header_apdu c i q1 q2 with
                lc := l.val, data := some 5, datalen := l.val, le := le_norm x,
                cse := K.SC_APDU_CASE_4_SHORT })) ∨
       (∃ l d x, rest = l :: d ∧ l.val + 1 < d.length ∧ d[l.val]? = some x ∧
          build_apdu K (some b) b.length (some a0) =
            some (SC_FUNC_RETURN K.SC_ERROR_INVALID_DATA
              (some { header_apdu c i q1 q2 with
                lc := l.val, data := some 5, datalen := l.val, le := le_norm x,
                cse := K.SC_APDU_CASE_4_SHORT })
              [Msg.too_long (d.length - l.val - 1)]))) := by
  obtain ⟨c, i, q1, q2, rest, rfl⟩ := exists_header b h4
  refine ⟨c, i, q1, q2, rest, rfl, ?_⟩
  match rest with
  | [] => exact Or.inl ⟨rfl, build_apdu_len4 K c i q1 q2 a0⟩
  | [x] => exact Or.inr (Or.inl ⟨x, rfl, build_apdu_len5 K c i q1 q2 x a0⟩)
  | l :: y :: t =>
    have hlen : (c :: i :: q1 :: q2 :: l :: y :: t).length = 5 + (y :: t).length := by
      simp only [List.length_cons]; omega
    have h1 : 1 ≤ (y :: t).length := by simp
    rw [hlen]
    rcases Nat.lt_trichotomy (y :: t).length l.val with hlt | heq | hgt
    · exact Or.inr (Or.inr (Or.inl ⟨l, y :: t, rfl, h1, hlt,
        build_apdu_data_short K c i q1 q2 l (y :: t) a0 h1 hlt⟩))
    · exact Or.inr (Or.inr (Or.inr (Or.inl ⟨l, y :: t, rfl, h1, heq,
        build_apdu_case3 K c i q1 q2 l (y :: t) a0 h1 heq⟩)))
    · have hx : (y :: t)[l.val]? = some ((y :: t)[l.val]) := List.getElem?_eq_getElem hgt
      rcases Nat.lt_or_ge (l.val + 1) (y :: t).length with h2 | h2
      · exact Or.inr (Or.inr (Or.inr (Or.inr (Or.inr ⟨l, y :: t, _, rfl, h2, hx,
          build_apdu_too_long K c i q1 q2 l _ (y :: t) a0 hx h2⟩))))
      · have h3 : (y :: t).length = l.val + 1 := by omega
        exact Or.inr (Or.inr (Or.inr (Or.inr (Or.inl ⟨l, y :: t, _, rfl, h3, hx,
          build_apdu_case4 K c i q1 q2 l _ (y :: t) a0 hx h3⟩))))

theorem build_apdu_null_buf (K : OpenSC) (len : Nat) (apdu : Option sc_apdu_t) :
    build_apdu K none len apdu = some ⟨K.SC_ERROR_INVALID_ARGUMENTS, apdu, []⟩ := by
  simp [build_apdu, SC_FUNC_RETURN]

theorem build_apdu_null_apdu (K : OpenSC) (buf : Option (List u8)) (len : Nat) :
    build_apdu K buf len none = some ⟨K.SC_ERROR_INVALID_ARGUMENTS, none, []⟩ := by
  cases buf <;> simp [build_apdu, SC_FUNC_RETURN]

theorem build_apdu_lt4 (K : OpenSC) (b : List u8) (len : Nat) (a0 : sc_apdu_t) (h : len < 4) :
    build_apdu K (some b) len (some a0) =
      some ⟨K.SC_ERROR_INVALID_DATA, some a0, [Msg.too_short_header]⟩ := by
  simp [build_apdu, SC_FUNC_RETURN, h]

theorem le_norm_bounds (x : u8) : 1 ≤ le_norm x ∧ le_norm x ≤ 256 := by
  unfold le_norm
  have := x.isLt
  split <;> omega

theorem le_norm_mod (x : u8) : le_norm x % 256 = x.val := by
  unfold le_norm
  have := x.isLt
  split <;> omega

theorem serialise_by_value (K : OpenSC) (b b' : List u8) (a a' : sc_apdu_t)
    (h : by_value b a = by_value b' a') : serialise K b a = serialise K b' a' := by
  simp only [by_value, Prod.mk.injEq] at h
  obtain ⟨h1, h2, h3, h4, h5, h6, h7, h8, -, -⟩ := h
  simp only [serialise, h1, h2, h3, h4, h5, h6, h7, h8]

theorem take_append_last (d : List u8) (n : Nat) (x : u8)
    (hlen : d.length = n + 1) (hx : d[n]? = some x) : d.take n ++ [x] = d := by
  have h1 : d.take (n + 1) = d := List.take_of_length_le (by omega)
  rw [List.take_succ, hx] at h1
  simpa using h1

theorem round_trip (K : OpenSC) (hK : K.SC_ERROR_INVALID_DATA ≠ K.SC_SUCCESS)
    (hcases : cases_distinct K) (b : List u8) (a0 : sc_apdu_t) (o : Outcome) (a : sc_apdu_t)
    (hcall : build_apdu K (some b) b.length (some a0) = some o)
    (hok : o.ret = K.SC_SUCCESS) (ha : o.apdu = some a) :
    serialise K b a = b.map Fin.val ∧
    b[0]? = some a.cla ∧ b[1]? = some a.ins ∧ b[2]? = some a.p1 ∧ b[3]? = some a.p2 ∧
    a.datalen = a.lc := by
  obtain ⟨h12, h13, h14, h23, h24, h34⟩ := hcases
  rcases Nat.lt_or_ge b.length 4 with hlt4 | h4
  · rw [build_apdu_lt4 K b b.length a0 hlt4] at hcall
    cases hcall
    exact absurd hok hK
  obtain ⟨c, i, q1, q2, rest, rfl, h⟩ := build_apdu_shape K b a0 h4
  rcases h with ⟨rfl, h⟩ | ⟨x, rfl, h⟩ | ⟨l, d, rfl, h1, hlt, h⟩ | ⟨l, d, rfl, h1, heq, h⟩ |
    ⟨l, d, x, rfl, h3, hx, h⟩ | ⟨l, d, x, rfl, h2, hx, h⟩
  all_goals rw [h] at hcall; cases hcall
  · cases ha
    simp [serialise, header_apdu, memset_zero, h12, h13, h14]
  · cases ha
    simp [serialise, header_apdu, memset_zero, h12.symm, h23, h24, le_norm_mod]
  · exact absurd hok hK
  · cases ha
    have ht : List.take l.val d = d := List.take_of_length_le (by omega)
    simp [serialise, data_view, header_apdu, memset_zero, h13.symm, h23.symm, h34, ht]
  · cases ha
    have ht := take_append_last d l.val x h3 hx
    have ht2 : List.map Fin.val (List.take l.val d) ++ [x.val] = List.map Fin.val d := by
      conv_rhs => rw [← ht]
      simp
    simp [serialise, data_view, header_apdu, memset_zero, h14.symm, h24.symm, h34.symm,
      le_norm_mod]
    rw [← List.map_take]
    exact ht2
  · exact absurd hok hK

/-- The reads of the embedding are real: with `len = 4` and an object of three
bytes the read of the fourth header byte is outside the object, and the call
is undefined. -/
theorem build_apdu_reads_header :
    build_apdu opensc (some ex_header_short) 4 (some memset_zero) = none := by
  decide

/-- C1: for a non-null buffer of `len >= 4` bytes and a non-null output,
`build_apdu` returns `SC_SUCCESS` exactly when the length is `4` (case 1), `5`
(case 2 short), or, from `6` bytes on with `lc` byte 4, `5 + lc` (case 3 short)
or `6 + lc` (case 4 short); for every other length it returns the error
`SC_ERROR_INVALID_DATA`; on success the bytes the record accounts for,
`4 + (1 + lc in cases 3 and 4) + (1 in cases 2 and 4)`, are the input length. -/
theorem C1_success_iff_exact_length (K : OpenSC)
    (hK : K.SC_ERROR_INVALID_DATA ≠ K.SC_SUCCESS) (hcases : cases_distinct K)
    (b : List u8) (a0 : sc_apdu_t) (h4 : 4 ≤ b.length) :
    ∃ o, build_apdu K (some b) b.length (some a0) = some o ∧
      (o.ret = K.SC_SUCCESS ↔ exact_length b) ∧
      (¬ exact_length b → o.ret = K.SC_ERROR_INVALID_DATA ∧ o.ret ≠ K.SC_SUCCESS) ∧
      (o.ret = K.SC_SUCCESS → ∃ a, o.apdu = some a ∧ consumed K a = b.length ∧
        (b.length = 4 → a.cse = K.SC_APDU_CASE_1) ∧
        (b.length = 5 → a.cse = K.SC_APDU_CASE_2_SHORT) ∧
        (6 ≤ b.length → b.length = 5 + lc_byte b → a.cse = K.SC_APDU_CASE_3_SHORT) ∧
        (6 ≤ b.length → b.length = 6 + lc_byte b → a.cse = K.SC_APDU_CASE_4_SHORT)) := by
  obtain ⟨h12, h13, h14, h23, h24, h34⟩ := hcases
  obtain ⟨c, i, q1, q2, rest, rfl, h⟩ := build_apdu_shape K b a0 h4
  rcases h with ⟨rfl, h⟩ | ⟨x, rfl, h⟩ | ⟨l, d, rfl, h1, hlt, h⟩ | ⟨l, d, rfl, h1, heq, h⟩ |
    ⟨l, d, x, rfl, h3, hx, h⟩ | ⟨l, d, x, rfl, h2, hx, h⟩
  · refine ⟨_, h, ?_⟩
    simp [build_apdu_finish, SC_FUNC_RETURN, exact_length, consumed, h12, h13, h14]
  · refine ⟨_, h, ?_⟩
    simp [build_apdu_finish, SC_FUNC_RETURN, exact_length, consumed, h23, h24, h12.symm]
  · have hd : d ≠ [] := by intro e; simp [e] at h1
    refine ⟨_, h, ?_⟩
    simp [SC_FUNC_RETURN, exact_length, lc_byte, hK, hd]
    omega
  · have hd : d ≠ [] := by intro e; simp [e] at h1
    refine ⟨_, h, ?_⟩
    simp [build_apdu_finish, SC_FUNC_RETURN, exact_length, lc_byte, consumed, header_apdu,
      h34, h13.symm, h23.symm, hd]
    omega
  · have hd : d ≠ [] := by intro e; simp [e] at h3
    refine ⟨_, h, ?_⟩
    simp [build_apdu_finish, SC_FUNC_RETURN, exact_length, lc_byte, consumed, header_apdu,
      h34.symm, h14.symm, h24.symm, hd]
    omega
  · have hd : d ≠ [] := by intro e; simp [e] at h2
    refine ⟨_, h, ?_⟩
    simp [SC_FUNC_RETURN, exact_length, lc_byte, hK, hd]
    omega

/-- Witness for C1: the seven-byte command `00 A4 04 00 02 3F 00`. -/
theorem C1_success_iff_exact_length_witness :
    ∃ o, build_apdu opensc (some ex_case3) ex_case3.length (some memset_zero) = some o ∧
      (o.ret = opensc.SC_SUCCESS ↔ exact_length ex_case3) ∧
      (¬ exact_length ex_case3 →
        o.ret = opensc.SC_ERROR_INVALID_DATA ∧ o.ret ≠ opensc.SC_SUCCESS) ∧
      (o.ret = opensc.SC_SUCCESS → ∃ a, o.apdu = some a ∧
        consumed opensc a = ex_case3.length ∧
        (ex_case3.length = 4 → a.cse = opensc.SC_APDU_CASE_1) ∧
        (ex_case3.length = 5 → a.cse = opensc.SC_APDU_CASE_2_SHORT) ∧
        (6 ≤ ex_case3.length → ex_case3.length = 5 + lc_byte ex_case3 →
          a.cse = opensc.SC_APDU_CASE_3_SHORT) ∧
        (6 ≤ ex_case3.length → ex_case3.length = 6 + lc_byte ex_case3 →
          a.cse = opensc.SC_APDU_CASE_4_SHORT)) :=
  C1_success_iff_exact_length opensc (by decide) (by unfold cases_distinct; decide)
    ex_case3 memset_zero (by decide)

/-- C2 (amended): for every `lc` in `[1,255]` and every buffer of exactly
`4 + 1 + lc` bytes whose byte 4 is `lc`, `build_apdu` succeeds with case 3
short: the `lc` field is `lc`, `datalen = lc`, the data pointer is `buf + 5`
and the data are the bytes `[5, 5+lc)` by value, and `le = 0`. -/
theorem C2_case3_short (K : OpenSC) (b : List u8) (a0 : sc_apdu_t) (lc : Nat)
    (hlc : 1 ≤ lc) (hlen : b.length = 4 + 1 + lc) (hb : lc_byte b = lc) :
    ∃ o a, build_apdu K (some b) b.length (some a0) = some o ∧
      o.ret = K.SC_SUCCESS ∧ o.apdu = some a ∧
      a.cse = K.SC_APDU_CASE_3_SHORT ∧ a.lc = lc ∧ a.datalen = lc ∧
      a.data = some 5 ∧ data_view b a = (b.drop 5).take lc ∧ a.le = 0 := by
  obtain ⟨c, i, q1, q2, rest, rfl, h⟩ := build_apdu_shape K b a0 (by omega)
  rcases h with ⟨rfl, h⟩ | ⟨x, rfl, h⟩ | ⟨l, d, rfl, h1, hlt, h⟩ | ⟨l, d, rfl, h1, heq, h⟩ |
    ⟨l, d, x, rfl, h3, hx, h⟩ | ⟨l, d, x, rfl, h2, hx, h⟩
  · exfalso; simp [lc_byte] at hlen hb; omega
  · exfalso; simp [lc_byte] at hlen hb; omega
  · exfalso; simp [lc_byte] at hlen hb; omega
  · simp [lc_byte] at hlen hb
    refine ⟨_, _, h, rfl, rfl, ?_⟩
    simp [header_apdu, memset_zero, data_view, hb]
  · exfalso; simp [lc_byte] at hlen hb; omega
  · exfalso; simp [lc_byte] at hlen hb; omega

/-- Witness for C2: `00 A4 04 00 02 3F 00`, with `lc = 2`. -/
theorem C2_case3_short_witness :
    ∃ o a, build_apdu opensc (some ex_case3) ex_case3.length (some memset_zero) = some o ∧
      o.ret = opensc.SC_SUCCESS ∧ o.apdu = some a ∧
      a.cse = opensc.SC_APDU_CASE_3_SHORT ∧ a.lc = 2 ∧ a.datalen = 2 ∧
      a.data = some 5 ∧ data_view ex_case3 a = (ex_case3.drop 5).take 2 ∧ a.le = 0 :=
  C2_case3_short opensc ex_case3 memset_zero 2 (by decide) (by decide) (by decide)

/-- C2 as stated fails at `lc = 0`: the five-byte buffer `00 A4 04 00 00` has
length `4 + 1 + 0` and byte 4 equal to `0`, and `build_apdu` reads its last
byte as `le`, giving case 2 short with `le = 256`, not case 3 short with
`le = 0`. -/
theorem C2_counterexample_lc_zero :
    ex_case2.length = 4 + 1 + 0 ∧ lc_byte ex_case2 = 0 ∧
    build_apdu opensc (some ex_case2) ex_case2.length (some memset_zero) =
      some ⟨opensc.SC_SUCCESS,
        some { memset_zero with
          cse := opensc.SC_APDU_CASE_2_SHORT, ins := 0xA4, p1 := 0x04, le := 256, flags := 6 },
        [Msg.debug_apdu 5 0xA4 0x04 0x00]⟩ ∧
    ¬ ∃ o a, build_apdu opensc (some ex_case2) ex_case2.length (some memset_zero) = some o ∧
      o.ret = opensc.SC_SUCCESS ∧ o.apdu = some a ∧
      a.cse = opensc.SC_APDU_CASE_3_SHORT ∧ a.lc = 0 ∧ a.datalen = 0 ∧
      a.data = some 5 ∧ data_view ex_case2 a = (ex_case2.drop 5).take 0 ∧ a.le = 0 := by
  have hrun : build_apdu opensc (some ex_case2) ex_case2.length (some memset_zero) =
      some ⟨opensc.SC_SUCCESS,
        some { memset_zero with
          cse := opensc.SC_APDU_CASE_2_SHORT, ins := 0xA4, p1 := 0x04, le := 256, flags := 6 },
        [Msg.debug_apdu 5 0xA4 0x04 0x00]⟩ := by decide
  refine ⟨by decide, by decide, hrun, ?_⟩
  rintro ⟨o, a, ho, -, ha, -, -, -, -, -, hle⟩
  rw [hrun] at ho
  cases ho
  cases ha
  simp at hle

/-- C3 (amended): for every `1 <= k < lc` and every buffer of `4 + 1 + k` bytes
whose byte 4 is `lc`, `build_apdu` fails with `SC_ERROR_INVALID_DATA`, never
`SC_SUCCESS`, and the one message it logs is the too-short message with the
shortfall `lc - k`. -/
theorem C3_data_too_short (K : OpenSC) (hK : K.SC_ERROR_INVALID_DATA ≠ K.SC_SUCCESS)
    (b : List u8) (a0 : sc_apdu_t) (lc k : Nat)
    (hk1 : 1 ≤ k) (hk : k < lc) (hlen : b.length = 4 + 1 + k) (hb : lc_byte b = lc) :
    ∃ o, build_apdu K (some b) b.length (some a0) = some o ∧
      o.ret = K.SC_ERROR_INVALID_DATA ∧ o.ret ≠ K.SC_SUCCESS ∧
      o.log = [Msg.too_short (lc - k)] := by
  obtain ⟨c, i, q1, q2, rest, rfl, h⟩ := build_apdu_shape K b a0 (by omega)
  rcases h with ⟨rfl, h⟩ | ⟨x, rfl, h⟩ | ⟨l, d, rfl, h1, hlt, h⟩ | ⟨l, d, rfl, h1, heq, h⟩ |
    ⟨l, d, x, rfl, h3, hx, h⟩ | ⟨l, d, x, rfl, h2, hx, h⟩
  · exfalso; simp [lc_byte] at hlen hb; omega
  · exfalso; simp [lc_byte] at hlen hb; omega
  · simp [lc_byte] at hlen hb
    refine ⟨_, h, ?_⟩
    simp [SC_FUNC_RETURN, hK, hb]
    omega
  · exfalso; simp [lc_byte] at hlen hb; omega
  · exfalso; simp [lc_byte] at hlen hb; omega
  · exfalso; simp [lc_byte] at hlen hb; omega

/-- Witness for C3: `00 A4 04 00 05 3F 00`, with `lc = 5` and `k = 2`. -/
theorem C3_data_too_short_witness :
    ∃ o, build_apdu opensc (some ex_short) ex_short.length (some memset_zero) = some o ∧
      o.ret = opensc.SC_ERROR_INVALID_DATA ∧ o.ret ≠ opensc.SC_SUCCESS ∧
      o.log = [Msg.too_short (5 - 2)] :=
  C3_data_too_short opensc (by decide) ex_short memset_zero 5 2
    (by decide) (by decide) (by decide) (by decide)

/-- C3 as stated fails at `k = 0`: the five-byte buffer `00 A4 04 00 03` has
length `4 + 1 + 0` and byte 4 equal to `3 > 0`, and `build_apdu` accepts it as
case 2 short with `le = 3`; it logs no too-short message. -/
theorem C3_counterexample_k_zero :
    ex_le3.length = 4 + 1 + 0 ∧ lc_byte ex_le3 = 3 ∧ 0 < 3 ∧
    build_apdu opensc (some ex_le3) ex_le3.length (some memset_zero) =
      some ⟨opensc.SC_SUCCESS,
        some { memset_zero with
          cse := opensc.SC_APDU_CASE_2_SHORT, ins := 0xA4, p1 := 0x04, le := 3, flags := 6 },
        [Msg.debug_apdu 5 0xA4 0x04 0x00]⟩ ∧
    ¬ ∃ o, build_apdu opensc (some ex_le3) ex_le3.length (some memset_zero) = some o ∧
      o.ret = opensc.SC_ERROR_INVALID_DATA ∧ o.ret ≠ opensc.SC_SUCCESS ∧
      o.log = [Msg.too_short (3 - 0)] := by
  have hrun : build_apdu opensc (some ex_le3) ex_le3.length (some memset_zero) =
      some ⟨opensc.SC_SUCCESS,
        some { memset_zero with
          cse := opensc.SC_APDU_CASE_2_SHORT, ins := 0xA4, p1 := 0x04, le := 3, flags := 6 },
        [Msg.debug_apdu 5 0xA4 0x04 0x00]⟩ := by decide
  refine ⟨by decide, by decide, by decide, hrun, ?_⟩
  rintro ⟨o, ho, -, -, hlog⟩
  rw [hrun] at ho
  cases ho
  simp at hlog

/-- C4: for every `lc` in `[0,255]`, every `m > 1` and every buffer of
`4 + 1 + lc + m` bytes whose byte 4 is `lc`, `build_apdu` fails with
`SC_ERROR_INVALID_DATA`, never `SC_SUCCESS`, and the one message it logs is
the too-long message with the surplus `m - 1`; with byte 4 equal to `0` (the
extended-length encodings, `7` bytes or more) the surplus is `len - 6`. -/
theorem C4_data_too_long (K : OpenSC) (hK : K.SC_ERROR_INVALID_DATA ≠ K.SC_SUCCESS)
    (b : List u8) (a0 : sc_apdu_t) (lc m : Nat)
    (hm : 1 < m) (hlen : b.length = 4 + 1 + lc + m) (hb : lc_byte b = lc) :
    lc ≤ 255 ∧
    ∃ o, build_apdu K (some b) b.length (some a0) = some o ∧
      o.ret = K.SC_ERROR_INVALID_DATA ∧ o.ret ≠ K.SC_SUCCESS ∧
      o.log = [Msg.too_long (m - 1)] ∧
      (lc = 0 → 7 ≤ b.length ∧ o.log = [Msg.too_long (b.length - 6)]) := by
  obtain ⟨c, i, q1, q2, rest, rfl, h⟩ := build_apdu_shape K b a0 (by omega)
  rcases h with ⟨rfl, h⟩ | ⟨x, rfl, h⟩ | ⟨l, d, rfl, h1, hlt, h⟩ | ⟨l, d, rfl, h1, heq, h⟩ |
    ⟨l, d, x, rfl, h3, hx, h⟩ | ⟨l, d, x, rfl, h2, hx, h⟩
  · exfalso; simp [lc_byte] at hlen hb; omega
  · exfalso; simp [lc_byte] at hlen hb; omega
  · exfalso; simp [lc_byte] at hlen hb; omega
  · exfalso; simp [lc_byte] at hlen hb; omega
  · exfalso; simp [lc_byte] at hlen hb; omega
  · simp [lc_byte] at hlen hb
    refine ⟨by omega, _, h, ?_⟩
    have e1 : d.length - l.val - 1 = m - 1 := by omega
    simp [SC_FUNC_RETURN, hK, e1]
    intro h0
    omega

/-- Witness for C4: `00 A4 04 00 02 3F 00 00 01 02`, with `lc = 2` and `m = 3`. -/
theorem C4_data_too_long_witness :
    2 ≤ 255 ∧
    ∃ o, build_apdu opensc (some ex_long) ex_long.length (some memset_zero) = some o ∧
      o.ret = opensc.SC_ERROR_INVALID_DATA ∧ o.ret ≠ opensc.SC_SUCCESS ∧
      o.log = [Msg.too_long (3 - 1)] ∧
      (2 = 0 → 7 ≤ ex_long.length ∧ o.log = [Msg.too_long (ex_long.length - 6)]) :=
  C4_data_too_long opensc (by decide) ex_long memset_zero 2 3
    (by decide) (by decide) (by decide)

/-- C5: whenever `build_apdu` succeeds, the record is in one of the four cases;
it is case 2 short exactly when `len = 5`, and then `le` is byte 4 read with
`0` as `256`; it is case 4 short exactly when `len = 6 + lc` (`lc` byte 4,
`len >= 6`), and then `le` is byte `5 + lc` read the same way; in both `le` is
in `[1,256]`; in case 1 and case 3 short `le = 0`. -/
theorem C5_le_field (K : OpenSC) (hK : K.SC_ERROR_INVALID_DATA ≠ K.SC_SUCCESS)
    (hcases : cases_distinct K) (b : List u8) (a0 : sc_apdu_t) (o : Outcome) (a : sc_apdu_t)
    (hcall : build_apdu K (some b) b.length (some a0) = some o)
    (hok : o.ret = K.SC_SUCCESS) (ha : o.apdu = some a) :
    (a.cse = K.SC_APDU_CASE_1 ∨ a.cse = K.SC_APDU_CASE_2_SHORT ∨
      a.cse = K.SC_APDU_CASE_3_SHORT ∨ a.cse = K.SC_APDU_CASE_4_SHORT) ∧
    (a.cse = K.SC_APDU_CASE_2_SHORT ↔ b.length = 5) ∧
    (a.cse = K.SC_APDU_CASE_4_SHORT ↔ 6 ≤ b.length ∧ b.length = 6 + lc_byte b) ∧
    (a.cse = K.SC_APDU_CASE_2_SHORT → ∃ x, b[4]? = some x ∧ a.le = le_norm x) ∧
    (a.cse = K.SC_APDU_CASE_4_SHORT →
      a.lc = lc_byte b ∧ ∃ x, b[5 + lc_byte b]? = some x ∧ a.le = le_norm x) ∧
    (a.cse = K.SC_APDU_CASE_2_SHORT ∨ a.cse = K.SC_APDU_CASE_4_SHORT →
      1 ≤ a.le ∧ a.le ≤ 256) ∧
    (a.cse = K.SC_APDU_CASE_1 ∨ a.cse = K.SC_APDU_CASE_3_SHORT → a.le = 0) := by
  obtain ⟨h12, h13, h14, h23, h24, h34⟩ := hcases
  rcases Nat.lt_or_ge b.length 4 with hlt4 | h4
  · rw [build_apdu_lt4 K b b.length a0 hlt4] at hcall
    cases hcall
    exact absurd hok hK
  obtain ⟨c, i, q1, q2, rest, rfl, h⟩ := build_apdu_shape K b a0 h4
  rcases h with ⟨rfl, h⟩ | ⟨x, rfl, h⟩ | ⟨l, d, rfl, h1, hlt, h⟩ | ⟨l, d, rfl, h1, heq, h⟩ |
    ⟨l, d, x, rfl, h3, hx, h⟩ | ⟨l, d, x, rfl, h2, hx, h⟩
  all_goals rw [h] at hcall; cases hcall
  · cases ha
    simp [header_apdu, memset_zero, h12, h13, h14]
  · cases ha
    have hb := le_norm_bounds x
    simp [header_apdu, memset_zero, h12.symm, h23, h24, hb]
  · exact absurd hok hK
  · cases ha
    have hd : d ≠ [] := by intro e; simp [e] at h1
    simp [header_apdu, memset_zero, h13.symm, h23.symm, h34, lc_byte, hd]
    omega
  · cases ha
    have hb := le_norm_bounds x
    have hd : d ≠ [] := by intro e; simp [e] at h3
    simp [header_apdu, memset_zero, h14.symm, h24.symm, h34.symm, lc_byte, hd,
      getElem?_past_header, hx, hb, h3]
    omega
  · exact absurd hok hK

/-- Witness for C5: `00 A4 04 00 02 3F 00 00`, case 4 short with `le = 256`. -/
theorem C5_le_field_witness :
    (opensc.SC_APDU_CASE_4_SHORT = opensc.SC_APDU_CASE_1 ∨
      opensc.SC_APDU_CASE_4_SHORT = opensc.SC_APDU_CASE_2_SHORT ∨
      opensc.SC_APDU_CASE_4_SHORT = opensc.SC_APDU_CASE_3_SHORT ∨
      opensc.SC_APDU_CASE_4_SHORT = opensc.SC_APDU_CASE_4_SHORT) ∧
    (opensc.SC_APDU_CASE_4_SHORT = opensc.SC_APDU_CASE_2_SHORT ↔ ex_case4.length = 5) ∧
    (opensc.SC_APDU_CASE_4_SHORT = opensc.SC_APDU_CASE_4_SHORT ↔
      6 ≤ ex_case4.length ∧ ex_case4.length = 6 + lc_byte ex_case4) ∧
    (opensc.SC_APDU_CASE_4_SHORT = opensc.SC_APDU_CASE_2_SHORT →
      ∃ x, ex_case4[4]? = some x ∧ 256 = le_norm x) ∧
    (opensc.SC_APDU_CASE_4_SHORT = opensc.SC_APDU_CASE_4_SHORT →
      2 = lc_byte ex_case4 ∧ ∃ x, ex_case4[5 + lc_byte ex_case4]? = some x ∧ 256 = le_norm x) ∧
    (opensc.SC_APDU_CASE_4_SHORT = opensc.SC_APDU_CASE_2_SHORT ∨
      opensc.SC_APDU_CASE_4_SHORT = opensc.SC_APDU_CASE_4_SHORT → 1 ≤ 256 ∧ 256 ≤ 256) ∧
    (opensc.SC_APDU_CASE_4_SHORT = opensc.SC_APDU_CASE_1 ∨
      opensc.SC_APDU_CASE_4_SHORT = opensc.SC_APDU_CASE_3_SHORT → 256 = 0) :=
  C5_le_field opensc (by decide) (by unfold cases_distinct; decide) ex_case4 memset_zero
    ⟨opensc.SC_SUCCESS,
      some { cse := opensc.SC_APDU_CASE_4_SHORT, cla := 0x00, ins := 0xA4, p1 := 0x04, p2 := 0x00,
             lc := 2, le := 256, data := some 5, datalen := 2, flags := 6 },
      [Msg.debug_apdu 8 0xA4 0x04 0x00]⟩
    { cse := opensc.SC_APDU_CASE_4_SHORT, cla := 0x00, ins := 0xA4, p1 := 0x04, p2 := 0x00,
      lc := 2, le := 256, data := some 5, datalen := 2, flags := 6 }
    (by decide) rfl rfl

/-- C7: with non-null buffer and output and `len < 4`, `build_apdu` fails with
`SC_ERROR_INVALID_DATA` and the header-too-short message; the outcome is the
same for every buffer, the empty one included, so no byte is read; and the
output record is left as it was, so every field is its prior value or zero. -/
theorem C7_header_too_short (K : OpenSC) (hK : K.SC_ERROR_INVALID_DATA ≠ K.SC_SUCCESS)
    (b : List u8) (len : Nat) (a0 : sc_apdu_t) (hlen : len < 4) :
    ∃ o, build_apdu K (some b) len (some a0) = some o ∧
      o.ret = K.SC_ERROR_INVALID_DATA ∧ o.ret ≠ K.SC_SUCCESS ∧
      o.log = [Msg.too_short_header] ∧
      (∀ b' : List u8, build_apdu K (some b') len (some a0) = some o) ∧
      o.apdu = some a0 ∧ prior_or_zero a0 a0 ∧
      (∀ a, o.apdu = some a → prior_or_zero a0 a) := by
  refine ⟨_, build_apdu_lt4 K b len a0 hlen, rfl, hK, rfl,
    fun b' => build_apdu_lt4 K b' len a0 hlen, rfl, ?_, ?_⟩
  · simp [prior_or_zero]
  · intro a ha
    cases ha
    simp [prior_or_zero]

/-- Witness for C7: the three-byte buffer `00 A4 04` and an output record that
holds a successful parse from before. -/
theorem C7_header_too_short_witness :
    ∃ o, build_apdu opensc (some ex_header_short) 3 (some (header_apdu 1 2 3 4)) = some o ∧
      o.ret = opensc.SC_ERROR_INVALID_DATA ∧ o.ret ≠ opensc.SC_SUCCESS ∧
      o.log = [Msg.too_short_header] ∧
      (∀ b' : List u8, build_apdu opensc (some b') 3 (some (header_apdu 1 2 3 4)) = some o) ∧
      o.apdu = some (header_apdu 1 2 3 4) ∧
      prior_or_zero (header_apdu 1 2 3 4) (header_apdu 1 2 3 4) ∧
      (∀ a, o.apdu = some a → prior_or_zero (header_apdu 1 2 3 4) a) :=
  C7_header_too_short opensc (by decide) ex_header_short 3 (header_apdu 1 2 3 4) (by decide)

/-- C8: when a call with non-null arguments and `len >= 4` fails, whatever the
output record held before, the record it leaves has `flags = 0`; every
successful call leaves
`flags = SC_APDU_FLAGS_NO_GET_RESP | SC_APDU_FLAGS_NO_RETRY_WL`; so the record
of a failed call is equal to the record of no successful call. -/
theorem C8_failed_record_not_success (K : OpenSC)
    (hD : K.SC_ERROR_INVALID_DATA ≠ K.SC_SUCCESS)
    (hA : K.SC_ERROR_INVALID_ARGUMENTS ≠ K.SC_SUCCESS)
    (hF : K.SC_APDU_FLAGS_NO_GET_RESP ||| K.SC_APDU_FLAGS_NO_RETRY_WL ≠ 0)
    (b : List u8) (len : Nat) (a0 : sc_apdu_t) (o : Outcome) (h4 : 4 ≤ len)
    (hcall : build_apdu K (some b) len (some a0) = some o) (hfail : o.ret ≠ K.SC_SUCCESS) :
    (∃ a, o.apdu = some a ∧ a.flags = 0) ∧
    ∀ (buf' : Option (List u8)) (len' : Nat) (apdu' : Option sc_apdu_t) (o' : Outcome),
      build_apdu K buf' len' apdu' = some o' → o'.ret = K.SC_SUCCESS →
        (∃ a', o'.apdu = some a' ∧
          a'.flags = K.SC_APDU_FLAGS_NO_GET_RESP ||| K.SC_APDU_FLAGS_NO_RETRY_WL) ∧
        o.apdu ≠ o'.apdu := by
  have h1 := build_apdu_flags K b len a0 h4
  rw [hcall] at h1
  obtain ⟨a, ha, hfl⟩ := h1
  have hz : a.flags = 0 := by
    rcases hfl with ⟨hs, -⟩ | ⟨-, hz⟩
    · exact absurd hs hfail
    · exact hz
  refine ⟨⟨a, ha, hz⟩, ?_⟩
  intro buf' len' apdu' o' hcall' hok'
  have key : ∃ a', o'.apdu = some a' ∧
      a'.flags = K.SC_APDU_FLAGS_NO_GET_RESP ||| K.SC_APDU_FLAGS_NO_RETRY_WL := by
    cases buf' with
    | none =>
      rw [build_apdu_null_buf] at hcall'
      cases hcall'
      exact absurd hok' hA
    | some b' =>
      cases apdu' with
      | none =>
        rw [build_apdu_null_apdu] at hcall'
        cases hcall'
        exact absurd hok' hA
      | some a0' =>
        rcases Nat.lt_or_ge len' 4 with hlt | hge
        · rw [build_apdu_lt4 K b' len' a0' hlt] at hcall'
          cases hcall'
          exact absurd hok' hD
        · have h2 := build_apdu_flags K b' len' a0' hge
          rw [hcall'] at h2
          obtain ⟨a', ha', hfl'⟩ := h2
          rcases hfl' with ⟨-, hf⟩ | ⟨he, -⟩
          · exact ⟨a', ha', hf⟩
          · exact absurd (he.symm.trans hok') hD
  refine ⟨key, ?_⟩
  obtain ⟨a', ha', hf'⟩ := key
  intro heq
  rw [ha, ha'] at heq
  cases heq
  rw [hz] at hf'
  exact hF hf'.symm

/-- Witness for C8: the too-long buffer `00 A4 04 00 02 3F 00 00 01 02`, with
an output record that held a finished parse before the call. -/
theorem C8_failed_record_not_success_witness :
    (∃ a, (some { cse := opensc.SC_APDU_CASE_4_SHORT, cla := 0x00, ins := 0xA4, p1 := 0x04,
                  p2 := 0x00, lc := 2, le := 256, data := some 5, datalen := 2,
                  flags := 0 } : Option sc_apdu_t) = some a ∧ a.flags = 0) ∧
    ∀ (buf' : Option (List u8)) (len' : Nat) (apdu' : Option sc_apdu_t) (o' : Outcome),
      build_apdu opensc buf' len' apdu' = some o' → o'.ret = opensc.SC_SUCCESS →
        (∃ a', o'.apdu = some a' ∧
          a'.flags = opensc.SC_APDU_FLAGS_NO_GET_RESP ||| opensc.SC_APDU_FLAGS_NO_RETRY_WL) ∧
        (some { cse := opensc.SC_APDU_CASE_4_SHORT, cla := 0x00, ins := 0xA4, p1 := 0x04,
                p2 := 0x00, lc := 2, le := 256, data := some 5, datalen := 2,
                flags := 0 } : Option sc_apdu_t) ≠ o'.apdu :=
  C8_failed_record_not_success opensc (by decide) (by decide) (by decide)
    ex_long ex_long.length
    { cse := opensc.SC_APDU_CASE_3_SHORT, cla := 0x00, ins := 0xA4, p1 := 0x04, p2 := 0x00,
      lc := 2, le := 0, data := some 5, datalen := 2, flags := 6 }
    ⟨opensc.SC_ERROR_INVALID_DATA,
      some { cse := opensc.SC_APDU_CASE_4_SHORT, cla := 0x00, ins := 0xA4, p1 := 0x04,
             p2 := 0x00, lc := 2, le := 256, data := some 5, datalen := 2, flags := 0 },
      [Msg.too_long 2]⟩
    (by decide) (by decide) (by decide)

/-- C9: round trip.  For every buffer on which `build_apdu` succeeds, writing
the record back as `cla ins p1 p2`, then (cases 3 and 4 short) `lc` and the
`datalen` data bytes, then (cases 2 and 4 short) `le mod 256`, gives the input
buffer; the header fields are the first four input bytes, `datalen = lc`, and
two accepted buffers whose records are equal, data compared by value, are
equal. -/
theorem C9_round_trip (K : OpenSC) (hK : K.SC_ERROR_INVALID_DATA ≠ K.SC_SUCCESS)
    (hcases : cases_distinct K) (b : List u8) (a0 : sc_apdu_t) (o : Outcome) (a : sc_apdu_t)
    (hcall : build_apdu K (some b) b.length (some a0) = some o)
    (hok : o.ret = K.SC_SUCCESS) (ha : o.apdu = some a) :
    serialise K b a = b.map Fin.val ∧
    (serialise K b a).length = b.length ∧
    b[0]? = some a.cla ∧ b[1]? = some a.ins ∧ b[2]? = some a.p1 ∧ b[3]? = some a.p2 ∧
    a.datalen = a.lc ∧
    ∀ (b' : List u8) (a0' : sc_apdu_t) (o' : Outcome) (a' : sc_apdu_t),
      build_apdu K (some b') b'.length (some a0') = some o' →
      o'.ret = K.SC_SUCCESS → o'.apdu = some a' →
      by_value b a = by_value b' a' → b = b' := by
  obtain ⟨hs, h0, h1, h2, h3, hd⟩ := round_trip K hK hcases b a0 o a hcall hok ha
  refine ⟨hs, by rw [hs, List.length_map], h0, h1, h2, h3, hd, ?_⟩
  intro b' a0' o' a' hcall' hok' ha' hv
  obtain ⟨hs', -⟩ := round_trip K hK hcases b' a0' o' a' hcall' hok' ha'
  have e : b.map Fin.val = b'.map Fin.val := by
    rw [← hs, ← hs']
    exact serialise_by_value K b b' a a' hv
  exact List.map_injective_iff.mpr Fin.val_injective e

/-- Witness for C9: `00 A4 04 00 02 3F 00 00`, case 4 short with `le = 256`,
written back with `le mod 256 = 0`. -/
theorem C9_round_trip_witness :
    serialise opensc ex_case4
        { cse := opensc.SC_APDU_CASE_4_SHORT, cla := 0x00, ins := 0xA4, p1 := 0x04, p2 := 0x00,
          lc := 2, le := 256, data := some 5, datalen := 2, flags := 6 } =
      ex_case4.map Fin.val ∧
    (serialise opensc ex_case4
        { cse := opensc.SC_APDU_CASE_4_SHORT, cla := 0x00, ins := 0xA4, p1 := 0x04, p2 := 0x00,
          lc := 2, le := 256, data := some 5, datalen := 2, flags := 6 }).length =
      ex_case4.length ∧
    ex_case4[0]? = some 0x00 ∧ ex_case4[1]? = some 0xA4 ∧ ex_case4[2]? = some 0x04 ∧
    ex_case4[3]? = some 0x00 ∧ 2 = 2 ∧
    ∀ (b' : List u8) (a0' : sc_apdu_t) (o' : Outcome) (a' : sc_apdu_t),
      build_apdu opensc (some b') b'.length (some a0') = some o' →
      o'.ret = opensc.SC_SUCCESS → o'.apdu = some a' →
      by_value ex_case4
        { cse := opensc.SC_APDU_CASE_4_SHORT, cla := 0x00, ins := 0xA4, p1 := 0x04, p2 := 0x00,
          lc := 2, le := 256, data := some 5, datalen := 2, flags := 6 } = by_value b' a' →
      ex_case4 = b' :=
  C9_round_trip opensc (by decide) (by unfold cases_distinct; decide) ex_case4 memset_zero
    ⟨opensc.SC_SUCCESS,
      some { cse := opensc.SC_APDU_CASE_4_SHORT, cla := 0x00, ins := 0xA4, p1 := 0x04,
             p2 := 0x00, lc := 2, le := 256, data := some 5, datalen := 2, flags := 6 },
      [Msg.debug_apdu 8 0xA4 0x04 0x00]⟩
    { cse := opensc.SC_APDU_CASE_4_SHORT, cla := 0x00, ins := 0xA4, p1 := 0x04, p2 := 0x00,
      lc := 2, le := 256, data := some 5, datalen := 2, flags := 6 }
    (by decide) rfl rfl

/-- C10 (amended): bounds safety.  For every non-null buffer whose size is
exactly `len` bytes, of any length and contents, every read of `build_apdu` is
inside the buffer: the call is defined (the out-of-range branch of the reads is
not taken).  On every success the data view `[5, 5 + datalen)` is inside the
buffer, index by index; `5 + datalen <= len` holds whenever the data pointer is
set (it is then `buf + 5`) and whenever `len >= 5`; in case 1 (`len = 4`) the
pointer is null and `datalen = 0`. -/
theorem C10_reads_in_bounds (K : OpenSC) (hK : K.SC_ERROR_INVALID_DATA ≠ K.SC_SUCCESS)
    (b : List u8) (a0 : sc_apdu_t) :
    ∃ o, build_apdu K (some b) b.length (some a0) = some o ∧
      (o.ret = K.SC_SUCCESS → ∃ a, o.apdu = some a ∧
        (∀ i, 5 ≤ i → i < 5 + a.datalen → i < b.length) ∧
        (a.data ≠ none → a.data = some 5 ∧ 5 + a.datalen ≤ b.length) ∧
        (a.data = none → a.datalen = 0) ∧
        (5 ≤ b.length → 5 + a.datalen ≤ b.length)) := by
  rcases Nat.lt_or_ge b.length 4 with hlt4 | h4
  · refine ⟨_, build_apdu_lt4 K b b.length a0 hlt4, ?_⟩
    intro hok
    exact absurd hok hK
  obtain ⟨c, i, q1, q2, rest, rfl, h⟩ := build_apdu_shape K b a0 h4
  rcases h with ⟨rfl, h⟩ | ⟨x, rfl, h⟩ | ⟨l, d, rfl, h1, hlt, h⟩ | ⟨l, d, rfl, h1, heq, h⟩ |
    ⟨l, d, x, rfl, h3, hx, h⟩ | ⟨l, d, x, rfl, h2, hx, h⟩
  · refine ⟨_, h, fun _ => ⟨_, rfl, ?_⟩⟩
    simp [header_apdu, memset_zero]
    intro j h5 hj
    omega
  · refine ⟨_, h, fun _ => ⟨_, rfl, ?_⟩⟩
    simp [header_apdu, memset_zero]
  · refine ⟨_, h, ?_⟩
    intro hok
    exact absurd hok hK
  · refine ⟨_, h, fun _ => ⟨_, rfl, ?_⟩⟩
    simp [header_apdu, memset_zero]
    refine ⟨?_, ?_⟩
    · intro j h5 hj
      omega
    · omega
  · refine ⟨_, h, fun _ => ⟨_, rfl, ?_⟩⟩
    simp [header_apdu, memset_zero]
    refine ⟨?_, ?_⟩
    · intro j h5 hj
      omega
    · omega
  · refine ⟨_, h, ?_⟩
    intro hok
    exact absurd hok hK

/-- Witness for C10: the constants of the OpenSC headers and the buffer
`00 A4 04 00 02 3F 00 00`. -/
theorem C10_reads_in_bounds_witness :
    ∃ o, build_apdu opensc (some ex_case4) ex_case4.length (some memset_zero) = some o ∧
      (o.ret = opensc.SC_SUCCESS → ∃ a, o.apdu = some a ∧
        (∀ i, 5 ≤ i → i < 5 + a.datalen → i < ex_case4.length) ∧
        (a.data ≠ none → a.data = some 5 ∧ 5 + a.datalen ≤ ex_case4.length) ∧
        (a.data = none → a.datalen = 0) ∧
        (5 ≤ ex_case4.length → 5 + a.datalen ≤ ex_case4.length)) :=
  C10_reads_in_bounds opensc (by decide) ex_case4 memset_zero

/-- C10 as stated fails for case 1: `00 A4 04 00` is accepted with
`datalen = 0` and a null data pointer, and `5 + datalen = 5` is more than its
length `4`. -/
theorem C10_counterexample_case1 :
    build_apdu opensc (some ex_case1) ex_case1.length (some memset_zero) =
      some ⟨opensc.SC_SUCCESS,
        some { memset_zero with
          cse := opensc.SC_APDU_CASE_1, ins := 0xA4, p1 := 0x04, flags := 6 },
        [Msg.debug_apdu 4 0xA4 0x04 0x00]⟩ ∧
    ¬ ∀ o a, build_apdu opensc (some ex_case1) ex_case1.length (some memset_zero) = some o →
      o.ret = opensc.SC_SUCCESS → o.apdu = some a → 5 + a.datalen ≤ ex_case1.length := by
  have hrun : build_apdu opensc (some ex_case1) ex_case1.length (some memset_zero) =
      some ⟨opensc.SC_SUCCESS,
        some { memset_zero with
          cse := opensc.SC_APDU_CASE_1, ins := 0xA4, p1 := 0x04, flags := 6 },
        [Msg.debug_apdu 4 0xA4 0x04 0x00]⟩ := by decide
  refine ⟨hrun, ?_⟩
  intro hall
  have h := hall _ _ hrun rfl rfl
  revert h
  decide

end Ccid
